import Mathlib

/-!
Shallow embedding of `src/main.rs` of the `linux-close-exec-race` harness.

The program spawns one worker thread per index `i` in `0..num_threads`;
each worker repeatedly writes an executable script to the fixed path
`base_path.join(i.to_string())` and executes it, and terminates the whole
process with exit status 1 on the first error.

Filesystem state, syscall events and syscall failures are made explicit:
each fallible operating-system call is driven by an oracle argument that
says whether (and how) it fails, and every operation appends an event to a
trace so that ordering properties can be stated.  The infinite worker loop
is modelled on a finite list of per-iteration oracles.
-/

namespace CloseExecRace

/-- The fixed script body written by `create_script` (main.rs line 76). -/
def scriptBody : String := "#!/bin/bash"

/-- Metadata of one on-disk file: its byte content and its permission mode
bits. -/
structure FileInfo where
  content : String
  mode : Nat
  deriving DecidableEq, Repr

/-- The filesystem, as an association list from paths to file info. -/
abbrev FS := List (String × FileInfo)

/-- Look up the file at path `p`. -/
def FS.get (fs : FS) (p : String) : Option FileInfo :=
  (fs.find? (fun e => e.1 == p)).map (fun e => e.2)

/-- Replace (or create) the file at path `p`. -/
def FS.set (fs : FS) (p : String) (fi : FileInfo) : FS :=
  (p, fi) :: fs.filter (fun e => !(e.1 == p))

/-- Mode bits the OS gives a file freshly created by `File::create` at a
path that did not yet exist.  The exact value is environment-dependent
(umask); no theorem depends on it. -/
def defaultCreateMode : Nat := 0o666

/-- The mode the file at `p` has right after `File::create`: an existing
file is truncated keeping its mode, a fresh file gets the default mode. -/
def truncMode (fs : FS) (p : String) : Nat :=
  match fs.get p with
  | some fi => fi.mode
  | none => defaultCreateMode

/-- Syscall-level events, recorded in traces to express ordering. -/
inductive Ev where
  | create (p : String)
  | getMetadata (p : String)
  | setPerm (p : String) (mode : Nat)
  | write (p : String) (data : String)
  | spawn (p : String)
  deriving DecidableEq, Repr

/-- Which of the four fallible calls inside `create_script` fail, in source
order: `File::create`, `metadata`, `set_permissions`, `write_all`. -/
structure CreateOracle where
  createFails : Bool
  metadataFails : Bool
  setPermFails : Bool
  writeFails : Bool
  deriving DecidableEq, Repr

/-- Outcome of `Command::new(path).status()` (main.rs line 81): `failed e`
when the OS fails to start the subprocess (the invocation itself fails,
with error text `e`), `exited s` when the child was started and exited
with status `s`. -/
inductive SpawnOutcome where
  | failed (e : String)
  | exited (status : Nat)
  deriving DecidableEq, Repr

/-- Embedding of `create_script` (main.rs lines 67-78).  Returns the trace
of syscall events performed and either the message attached by the
`anyhow` context at the first failing call, or the updated filesystem:
`File::create` truncates the file, `set_permissions` sets mode 0o700, and
`write_all` writes `scriptBody`. -/
def create_script (fs : FS) (p : String) (o : CreateOracle) :
    List Ev × Except String FS :=
  if o.createFails then
    ([Ev.create p], Except.error "File creation failed")
  else if o.metadataFails then
    ([Ev.create p, Ev.getMetadata p], Except.error "Failed to get file metadata")
  else if o.setPermFails then
    ([Ev.create p, Ev.getMetadata p, Ev.setPerm p 0o700],
      Except.error "Set permissions failed")
  else if o.writeFails then
    ([Ev.create p, Ev.getMetadata p, Ev.setPerm p 0o700, Ev.write p scriptBody],
      Except.error "Write failed")
  else
    ([Ev.create p, Ev.getMetadata p, Ev.setPerm p 0o700, Ev.write p scriptBody],
      Except.ok (((fs.set p ⟨"", truncMode fs p⟩).set p ⟨"", 0o700⟩).set p
        ⟨scriptBody, 0o700⟩))

/-- Embedding of `execute_script` (main.rs lines 80-83): start the file at
`p` directly as a subprocess and wait for it.  The child's exit status is
dropped; only an invocation failure is propagated. -/
def execute_script (p : String) (o : SpawnOutcome) : List Ev × Except String Unit :=
  ([Ev.spawn p],
    match o with
    | SpawnOutcome.failed e => Except.error e
    | SpawnOutcome.exited _ => Except.ok ())

/-- Embedding of `create_and_execute_script` (main.rs lines 61-65):
`create_script` then, only on its success, `execute_script`. -/
def create_and_execute_script (fs : FS) (p : String) (co : CreateOracle)
    (eo : SpawnOutcome) : List Ev × Except String FS :=
  match create_script fs p co with
  | (evs, Except.error e) => (evs, Except.error e)
  | (evs, Except.ok fs1) =>
    match execute_script p eo with
    | (evs2, Except.error e) => (evs ++ evs2, Except.error e)
    | (evs2, Except.ok _) => (evs ++ evs2, Except.ok fs1)

/-- Result of running a worker: `ran fs` when every supplied iteration
succeeded, `exited line code` when the worker printed `line` to stderr and
terminated the whole process with exit status `code`. -/
inductive WorkerResult where
  | ran (fs : FS)
  | exited (stderrLine : String) (code : Nat)
  deriving DecidableEq, Repr

/-- Embedding of the worker closure (main.rs lines 49-54): loop running
`create_and_execute_script`; on the first error print
`"<path>: <error>"` to stderr and call `std::process::exit(1)`, which
terminates the entire process.  One oracle pair per iteration. -/
def worker_run (fs : FS) (p : String) :
    List (CreateOracle × SpawnOutcome) → List Ev × WorkerResult
  | [] => ([], WorkerResult.ran fs)
  | (co, eo) :: rest =>
    match create_and_execute_script fs p co eo with
    | (evs, Except.error e) => (evs, WorkerResult.exited (p ++ ": " ++ e) 1)
    | (evs, Except.ok fs1) =>
      match worker_run fs1 p rest with
      | (evs2, r2) => (evs ++ evs2, r2)

/-- Decimal digit character: `decChar d` is the ASCII digit for `d`. -/
def decChar (d : Nat) : Char := Char.ofNat (48 + d)

/-- Decimal string of a natural number, modelling `i.to_string()` in
main.rs line 47 (the loop indices `0..num_threads` are nonnegative `i32`
values, rendered in decimal with no sign). -/
def decStr (n : Nat) : String :=
  if n = 0 then "0" else String.mk (((Nat.digits 10 n).map decChar).reverse)

/-- `Path::join` on Unix (main.rs line 47): an absolute right operand
replaces the base; otherwise a separator is inserted unless the base is
empty or already ends with one. -/
def pathJoin (base comp : String) : String :=
  if comp.data.head? = some '/' then comp
  else if base.data = [] then comp
  else if base.data.getLast? = some '/' then base ++ comp
  else base ++ "/" ++ comp

/-- Script path of worker `i` (main.rs line 47):
`base_path.join(i.to_string())`. -/
def script_path (base : String) (i : Nat) : String := pathJoin base (decStr i)

/-- Embedding of `str::parse::<i32>()` (main.rs line 43; the inferred type
of `num_threads` is `i32`): optional single `+`/`-` sign, then one or more
ASCII digits, and the value must fit in a 32-bit signed integer. -/
def parseI32 (s : String) : Option Int :=
  match s.data with
  | [] => none
  | c :: cs =>
    match (if c = '-' then (true, cs) else if c = '+' then (false, cs)
        else (false, c :: cs)) with
    | (neg, ds) =>
      if ds = [] then none
      else if ds.all (fun d => d.isDigit) then
        match ds.foldl (fun acc d => acc * 10 + (d.toNat - 48)) (0 : Nat) with
        | v =>
          if neg then
            if v ≤ 2 ^ 31 then some (-(v : Int)) else none
          else
            if v < 2 ^ 31 then some (v : Int) else none
      else none

/-- What `main` (main.rs lines 35-59) does before (or instead of) running
worker loops. -/
inductive MainOutcome where
  /-- Fewer than two positional arguments: a usage message and `exit(1)`
  (main.rs lines 38-41). -/
  | usage
  /-- The second positional argument does not parse as `i32`: `main`
  returns `Err`, the runtime prints the error and the process exits with
  status 1 (main.rs line 43). -/
  | invalidArg (msg : String)
  /-- Arguments accepted: one worker thread is spawned per listed path
  (main.rs lines 45-56); with an empty list the scope returns at once and
  `main` returns `Ok(())`. -/
  | run (paths : List String)
  deriving DecidableEq, Repr

/-- Embedding of argument handling and worker spawning in `main`
(main.rs lines 35-56).  `argv` includes the program name, which the first
`args.next()` discards; arguments beyond the first two positional ones
are never requested from the iterator. -/
def mainResult (argv : List String) : MainOutcome :=
  match argv.drop 1 with
  | base :: nt :: _ =>
    match parseI32 nt with
    | none => MainOutcome.invalidArg "Invalid num-threads"
    | some n => MainOutcome.run ((List.range n.toNat).map (script_path base))
  | _ => MainOutcome.usage

/-- The usage message printed at main.rs line 39. -/
def usageMsg : String :=
  "Expected arguments: \x7btemporary directory\x7d \x7bnum threads\x7d"

/-- Exit status of the process as determined at startup: `some c` when the
process terminates by itself with status `c` before any worker iteration,
`none` when worker threads are spawned (the scope then blocks until some
worker calls `exit(1)` or the process is killed externally). -/
def startupExitCode : MainOutcome → Option Nat
  | MainOutcome.usage => some 1
  | MainOutcome.invalidArg _ => some 1
  | MainOutcome.run [] => some 0
  | MainOutcome.run (_ :: _) => none

/-- First line printed to the error stream at startup, if any (the
`invalidArg` case models the `Error: ...` line the Rust runtime prints for
an `Err` return from `main`). -/
def startupStderr : MainOutcome → Option String
  | MainOutcome.usage => some usageMsg
  | MainOutcome.invalidArg msg => some ("Error: " ++ msg)
  | MainOutcome.run _ => none

/-- Paths of the worker threads spawned by `main`; only these paths ever
have files created at them. -/
def spawnedPaths : MainOutcome → List String
  | MainOutcome.run ps => ps
  | _ => []

/-- Numeric value of a list of decimal digit characters (most significant
first); a left inverse of the character rendering used by `decStr`. -/
def decVal (l : List Char) : Nat :=
  Nat.ofDigits 10 (l.reverse.map (fun c => c.toNat - 48))

theorem decChar_toNat : ∀ d < 10, (decChar d).toNat = 48 + d := by decide

theorem decVal_decStr (n : Nat) : decVal (decStr n).data = n := by
  by_cases hn : n = 0
  · subst hn; decide
  · unfold decStr decVal
    rw [if_neg hn]
    show Nat.ofDigits 10
      ((((Nat.digits 10 n).map decChar).reverse.reverse).map (fun c => c.toNat - 48)) = n
    rw [List.reverse_reverse, List.map_map]
    have hmap : (Nat.digits 10 n).map ((fun c => c.toNat - 48) ∘ decChar)
        = (Nat.digits 10 n).map id := by
      apply List.map_congr_left
      intro d hd
      have hlt : d < 10 := Nat.digits_lt_base (by norm_num) hd
      simp [Function.comp, decChar_toNat d hlt]
    rw [hmap, List.map_id]
    exact_mod_cast Nat.ofDigits_digits 10 n

theorem decStr_data_inj {m n : Nat} (h : (decStr m).data = (decStr n).data) :
    m = n := by
  have hm := decVal_decStr m
  have hn := decVal_decStr n
  rw [h] at hm
  omega

theorem decStr_inj {m n : Nat} (h : decStr m = decStr n) : m = n :=
  decStr_data_inj (congrArg String.data h)

theorem decStr_char_range (n : Nat) :
    ∀ c ∈ (decStr n).data, 48 ≤ c.toNat ∧ c.toNat ≤ 57 := by
  intro c hc
  by_cases hn : n = 0
  · subst hn
    simp only [decStr, if_pos rfl] at hc
    have : c = '0' := by
      simpa using hc
    subst this; decide
  · simp only [decStr, if_neg hn] at hc
    have hc2 : c ∈ ((Nat.digits 10 n).map decChar).reverse := hc
    rw [List.mem_reverse, List.mem_map] at hc2
    obtain ⟨d, hd, hdc⟩ := hc2
    have hlt : d < 10 := Nat.digits_lt_base (by norm_num) hd
    have := decChar_toNat d hlt
    rw [hdc] at this
    omega

theorem decStr_head_ne_slash (n : Nat) : (decStr n).data.head? ≠ some '/' := by
  intro h
  have hmem : '/' ∈ (decStr n).data := by
    cases hd : (decStr n).data with
    | nil => rw [hd] at h; simp at h
    | cons c t =>
      rw [hd] at h
      simp only [List.head?] at h
      have hc : c = '/' := by injection h
      rw [hc]
      exact List.mem_cons_self _ _
  have := decStr_char_range n '/' hmem
  revert this; decide

theorem pathJoin_right_inj (base : String) {c1 c2 : String}
    (h1 : c1.data.head? ≠ some '/') (h2 : c2.data.head? ≠ some '/')
    (h : pathJoin base c1 = pathJoin base c2) : c1 = c2 := by
  unfold pathJoin at h
  rw [if_neg h1, if_neg h2] at h
  by_cases hb : base.data = []
  · rwa [if_pos hb, if_pos hb] at h
  · rw [if_neg hb, if_neg hb] at h
    by_cases hsl : base.data.getLast? = some '/'
    · rw [if_pos hsl, if_pos hsl] at h
      have := congrArg String.data h
      rw [String.data_append, String.data_append] at this
      exact String.ext (List.append_cancel_left this)
    · rw [if_neg hsl, if_neg hsl] at h
      have := congrArg String.data h
      rw [String.data_append, String.data_append, String.data_append,
        String.data_append, List.append_assoc, List.append_assoc] at this
      exact String.ext (List.append_cancel_left (List.append_cancel_left this))

theorem script_path_inj (base : String) {i j : Nat} (h : i ≠ j) :
    script_path base i ≠ script_path base j := by
  intro he
  exact h (decStr_inj (pathJoin_right_inj base (decStr_head_ne_slash i)
    (decStr_head_ne_slash j) he))

theorem FS.get_set (fs : FS) (p : String) (fi : FileInfo) :
    (fs.set p fi).get p = some fi := by
  simp [FS.get, FS.set]

/-- Characterisation of a successful `create_script`: all four fallible
calls succeeded, the returned filesystem is the pre-state with the file at
`p` truncated, chmod-ed to 0o700 and rewritten to `scriptBody`, and the
trace is the four syscalls in source order. -/
theorem create_script_ok {fs : FS} {p : String} {o : CreateOracle} {fs1 : FS}
    (h : (create_script fs p o).2 = Except.ok fs1) :
    fs1 = ((fs.set p ⟨"", truncMode fs p⟩).set p ⟨"", 0o700⟩).set p
        ⟨scriptBody, 0o700⟩ ∧
    (create_script fs p o).1 =
      [Ev.create p, Ev.getMetadata p, Ev.setPerm p 0o700, Ev.write p scriptBody] := by
  unfold create_script at h ⊢
  split_ifs at h ⊢ <;> simp_all

/-- C1 is refuted at the second argument "0": "0" parses successfully as
`i32`, zero workers are spawned, nothing is printed to the error stream,
no files are created, and the process exits with status 0, not 1. -/
theorem c1_count_zero_counterexample :
    parseI32 "0" = some 0 ∧
    mainResult ["prog", "/tmp", "0"] = MainOutcome.run [] ∧
    startupExitCode (mainResult ["prog", "/tmp", "0"]) = some 0 ∧
    startupExitCode (mainResult ["prog", "/tmp", "0"]) ≠ some 1 ∧
    startupStderr (mainResult ["prog", "/tmp", "0"]) = none ∧
    spawnedPaths (mainResult ["prog", "/tmp", "0"]) = [] := by
  decide

/-- C1 (amended): if the second positional argument is a non-numeric
string, the process exits with status 1, prints an error line (not a
usage line) to the error stream, and creates no files; the decimal
literal "0", however, parses successfully, spawns zero workers, prints
nothing, creates no files and exits with status 0. -/
theorem c1_invalid_or_zero_count (prog base s : String) (rest : List String)
    (h : parseI32 s = none) :
    mainResult (prog :: base :: s :: rest)
      = MainOutcome.invalidArg "Invalid num-threads" ∧
    startupExitCode (mainResult (prog :: base :: s :: rest)) = some 1 ∧
    startupStderr (mainResult (prog :: base :: s :: rest))
      = some "Error: Invalid num-threads" ∧
    spawnedPaths (mainResult (prog :: base :: s :: rest)) = [] ∧
    parseI32 "0" = some 0 ∧
    startupExitCode (mainResult (prog :: base :: "0" :: rest)) = some 0 ∧
    spawnedPaths (mainResult (prog :: base :: "0" :: rest)) = [] := by
  have h0 : parseI32 "0" = some 0 := by decide
  have hm : mainResult (prog :: base :: s :: rest)
      = MainOutcome.invalidArg "Invalid num-threads" := by
    simp [mainResult, h]
  have hm0 : mainResult (prog :: base :: "0" :: rest) = MainOutcome.run [] := by
    simp [mainResult, h0]
  exact ⟨hm, by rw [hm]; rfl, by rw [hm]; rfl, by rw [hm]; rfl, h0,
    by rw [hm0]; rfl, by rw [hm0]; rfl⟩

/-- C1 witness: the amended claim instantiated at the non-numeric second
argument "abc". -/
theorem c1_invalid_or_zero_count_witness :
    parseI32 "abc" = none ∧
    (mainResult ["prog", "/tmp", "abc"]
        = MainOutcome.invalidArg "Invalid num-threads" ∧
      startupExitCode (mainResult ["prog", "/tmp", "abc"]) = some 1 ∧
      startupStderr (mainResult ["prog", "/tmp", "abc"])
        = some "Error: Invalid num-threads" ∧
      spawnedPaths (mainResult ["prog", "/tmp", "abc"]) = [] ∧
      parseI32 "0" = some 0 ∧
      startupExitCode (mainResult ["prog", "/tmp", "0"]) = some 0 ∧
      spawnedPaths (mainResult ["prog", "/tmp", "0"]) = []) :=
  ⟨by decide, c1_invalid_or_zero_count "prog" "/tmp" "abc" [] (by decide)⟩

/-- C2: any error from the create step or the execute step makes the
worker print one line of the form `<script-path>: <error description>`
and terminate the entire process with exit status 1; the remaining
iterations `rest` are discarded, so the error is never retried or
suppressed. -/
theorem c2_worker_error_fatal (fs : FS) (p : String) (co : CreateOracle)
    (eo : SpawnOutcome) (rest : List (CreateOracle × SpawnOutcome)) (e : String)
    (h : (create_and_execute_script fs p co eo).2 = Except.error e) :
    (worker_run fs p ((co, eo) :: rest)).2
      = WorkerResult.exited (p ++ ": " ++ e) 1 := by
  rcases hce : create_and_execute_script fs p co eo with ⟨evs, r⟩
  rw [hce] at h
  simp only at h
  subst h
  simp [worker_run, hce]

/-- C2 witness: a failing `File::create` on the first iteration is fatal
even though a would-be-successful second iteration was supplied. -/
theorem c2_worker_error_fatal_witness :
    (create_and_execute_script [] "/t/0" ⟨true, false, false, false⟩
        (SpawnOutcome.exited 0)).2 = Except.error "File creation failed" ∧
    (worker_run [] "/t/0" [(⟨true, false, false, false⟩, SpawnOutcome.exited 0),
        (⟨false, false, false, false⟩, SpawnOutcome.exited 0)]).2
      = WorkerResult.exited "/t/0: File creation failed" 1 :=
  ⟨rfl, c2_worker_error_fatal [] "/t/0" ⟨true, false, false, false⟩
    (SpawnOutcome.exited 0) [(⟨false, false, false, false⟩, SpawnOutcome.exited 0)]
    "File creation failed" rfl⟩

/-- C3: with a parsed worker count `n`, `main` spawns workers at the paths
`base` joined with the decimal strings of `0..n`, and distinct indices
always yield distinct paths. -/
theorem c3_paths_distinct (prog base s : String) (rest : List String) (n : Int)
    (hp : parseI32 s = some n) (i j : Nat) (hij : i ≠ j) :
    mainResult (prog :: base :: s :: rest)
      = MainOutcome.run ((List.range n.toNat).map (script_path base)) ∧
    script_path base i = pathJoin base (decStr i) ∧
    script_path base i ≠ script_path base j :=
  ⟨by simp [mainResult, hp], rfl, script_path_inj base hij⟩

/-- C3 witness: two workers on base "/tmp" get the distinct paths "/tmp/0"
and "/tmp/1". -/
theorem c3_paths_distinct_witness :
    parseI32 "2" = some 2 ∧ (0 : Nat) ≠ 1 ∧
    (mainResult ["p", "/tmp", "2"]
        = MainOutcome.run ((List.range (Int.toNat 2)).map (script_path "/tmp")) ∧
      script_path "/tmp" 0 = pathJoin "/tmp" (decStr 0) ∧
      script_path "/tmp" 0 ≠ script_path "/tmp" 1) :=
  ⟨by decide, by decide, c3_paths_distinct "p" "/tmp" "2" [] 2 (by decide) 0 1
    (by decide)⟩

/-- C4: after any successful create-script step the file at the script
path holds exactly `scriptBody` with mode 0o700, regardless of what the
filesystem held before, because `File::create` truncates. -/
theorem c4_content_after_create (fs : FS) (p : String) (o : CreateOracle)
    (fs1 : FS) (h : (create_script fs p o).2 = Except.ok fs1) :
    fs1.get p = some ⟨scriptBody, 0o700⟩ := by
  rw [(create_script_ok h).1]
  exact FS.get_set _ _ _

/-- C4 witness: a pre-existing file with different content and mode is
overwritten to exactly `scriptBody`. -/
theorem c4_content_after_create_witness :
    (create_script [("d/0", ⟨"old", 420⟩)] "d/0" ⟨false, false, false, false⟩).2
      = Except.ok [("d/0", ⟨scriptBody, 0o700⟩)] ∧
    FS.get [("d/0", ⟨scriptBody, 0o700⟩)] "d/0" = some ⟨scriptBody, 0o700⟩ :=
  ⟨rfl, c4_content_after_create [("d/0", ⟨"old", 420⟩)] "d/0"
    ⟨false, false, false, false⟩ [("d/0", ⟨scriptBody, 0o700⟩)] rfl⟩

/-- C5: the execute-script step fails exactly when the invocation of the
subprocess itself fails to start; when the child starts and exits, the
step succeeds and its result is independent of the child's exit status,
which is never inspected. -/
theorem c5_exec_invocation_only (p : String) (o : SpawnOutcome) :
    ((execute_script p o).2 = Except.ok () ↔ ∃ s, o = SpawnOutcome.exited s) ∧
    (∀ s1 s2 : Nat, execute_script p (SpawnOutcome.exited s1)
        = execute_script p (SpawnOutcome.exited s2)) ∧
    (∀ e : String, (execute_script p (SpawnOutcome.failed e)).2 = Except.error e) := by
  refine ⟨?_, fun s1 s2 => rfl, fun e => rfl⟩
  cases o <;> simp [execute_script]

/-- C6: every successful create-script step leaves the file with
permission bits 0o700, and in the syscall trace the permission-setting
call strictly precedes the body write. -/
theorem c6_mode_set_before_write (fs : FS) (p : String) (o : CreateOracle)
    (fs1 : FS) (h : (create_script fs p o).2 = Except.ok fs1) :
    (fs1.get p).map FileInfo.mode = some 0o700 ∧
    (create_script fs p o).1 =
      [Ev.create p, Ev.getMetadata p, Ev.setPerm p 0o700, Ev.write p scriptBody] := by
  obtain ⟨h1, h2⟩ := create_script_ok h
  refine ⟨?_, h2⟩
  rw [h1, FS.get_set]
  rfl

/-- C6 witness: creating the script at "/t/1" on an empty filesystem. -/
theorem c6_mode_set_before_write_witness :
    (create_script [] "/t/1" ⟨false, false, false, false⟩).2
      = Except.ok [("/t/1", ⟨scriptBody, 0o700⟩)] ∧
    ((FS.get [("/t/1", ⟨scriptBody, 0o700⟩)] "/t/1").map FileInfo.mode
        = some 0o700 ∧
      (create_script [] "/t/1" ⟨false, false, false, false⟩).1 =
        [Ev.create "/t/1", Ev.getMetadata "/t/1", Ev.setPerm "/t/1" 0o700,
          Ev.write "/t/1" scriptBody]) :=
  ⟨rfl, c6_mode_set_before_write [] "/t/1" ⟨false, false, false, false⟩
    [("/t/1", ⟨scriptBody, 0o700⟩)] rfl⟩

/-- C7: within an iteration the create trace strictly precedes the execute
trace, the execute step contributes events only when the create step
succeeded, the create step never spawns, the execute step is exactly one
spawn, and iterations are sequential: the events of an iteration precede
all events of later iterations. -/
theorem c7_step_order (fs : FS) (p : String) (co : CreateOracle)
    (eo : SpawnOutcome) (rest : List (CreateOracle × SpawnOutcome)) :
    (create_and_execute_script fs p co eo).1 =
      (create_script fs p co).1 ++
        (match (create_script fs p co).2 with
          | Except.ok _ => (execute_script p eo).1
          | Except.error _ => ([] : List Ev)) ∧
    (∀ q : String, Ev.spawn q ∉ (create_script fs p co).1) ∧
    (execute_script p eo).1 = [Ev.spawn p] ∧
    (worker_run fs p ((co, eo) :: rest)).1 =
      (create_and_execute_script fs p co eo).1 ++
        (match (create_and_execute_script fs p co eo).2 with
          | Except.ok fs1 => (worker_run fs1 p rest).1
          | Except.error _ => ([] : List Ev)) := by
  refine ⟨?_, ?_, rfl, ?_⟩
  · unfold create_and_execute_script
    rcases hc : create_script fs p co with ⟨evs, r⟩
    cases r <;> cases eo <;> simp [execute_script]
  · intro q
    unfold create_script
    split_ifs <;> simp
  · rcases hc : create_script fs p co with ⟨evs, r⟩
    cases r with
    | error e => simp [worker_run, create_and_execute_script, hc]
    | ok fs1 =>
      rcases hw : worker_run fs1 p rest with ⟨evs2, r2⟩
      cases eo <;>
        simp [worker_run, create_and_execute_script, execute_script, hc, hw]

/-- C8: with fewer than two positional arguments `main` prints the usage
line to the error stream, exits with status 1, and spawns no workers. -/
theorem c8_missing_args_usage (argv : List String)
    (h : (argv.drop 1).length < 2) :
    mainResult argv = MainOutcome.usage ∧
    startupExitCode (mainResult argv) = some 1 ∧
    startupStderr (mainResult argv) = some usageMsg ∧
    spawnedPaths (mainResult argv) = [] := by
  match argv with
  | [] => exact ⟨rfl, rfl, rfl, rfl⟩
  | [a] => exact ⟨rfl, rfl, rfl, rfl⟩
  | [a, b] => exact ⟨rfl, rfl, rfl, rfl⟩
  | a :: b :: c :: t =>
    exfalso
    simp at h
    omega

/-- C8 witness: one positional argument only. -/
theorem c8_missing_args_usage_witness :
    (List.length (List.drop 1 ["prog", "/tmp"]) < 2) ∧
    (mainResult ["prog", "/tmp"] = MainOutcome.usage ∧
      startupExitCode (mainResult ["prog", "/tmp"]) = some 1 ∧
      startupStderr (mainResult ["prog", "/tmp"]) = some usageMsg ∧
      spawnedPaths (mainResult ["prog", "/tmp"]) = []) :=
  ⟨by decide, c8_missing_args_usage ["prog", "/tmp"] (by decide)⟩

/-- C9: a second argument parsing to a negative i32 is accepted, spawns
zero workers, prints nothing, creates no files, and the process exits
with status 0. -/
theorem c9_negative_count_noop (prog base s : String) (rest : List String)
    (n : Int) (hp : parseI32 s = some n) (hn : n < 0) :
    mainResult (prog :: base :: s :: rest) = MainOutcome.run [] ∧
    startupExitCode (mainResult (prog :: base :: s :: rest)) = some 0 ∧
    startupStderr (mainResult (prog :: base :: s :: rest)) = none ∧
    spawnedPaths (mainResult (prog :: base :: s :: rest)) = [] := by
  have h0 : n.toNat = 0 := Int.toNat_of_nonpos hn.le
  have hm : mainResult (prog :: base :: s :: rest) = MainOutcome.run [] := by
    simp [mainResult, hp, h0]
  exact ⟨hm, by rw [hm]; rfl, by rw [hm]; rfl, by rw [hm]; rfl⟩

/-- C9 witness: second argument "-3". -/
theorem c9_negative_count_noop_witness :
    parseI32 "-3" = some (-3) ∧ ((-3 : Int) < 0) ∧
    (mainResult ["prog", "/tmp", "-3"] = MainOutcome.run [] ∧
      startupExitCode (mainResult ["prog", "/tmp", "-3"]) = some 0 ∧
      startupStderr (mainResult ["prog", "/tmp", "-3"]) = none ∧
      spawnedPaths (mainResult ["prog", "/tmp", "-3"]) = []) :=
  ⟨by decide, by decide, c9_negative_count_noop "prog" "/tmp" "-3" [] (-3)
    (by decide) (by decide)⟩

/-- C10: arguments beyond the first two positional ones are never read:
two invocations agreeing on the first two positional arguments behave
identically whatever trailing arguments follow. -/
theorem c10_trailing_args_ignored (prog base nt : String)
    (rest1 rest2 : List String) :
    mainResult (prog :: base :: nt :: rest1)
      = mainResult (prog :: base :: nt :: rest2) := rfl

end CloseExecRace
